import Mathlib

/-!
Verification of the File Ingestion and Delivery Upload Manager
(the FileUploader component of the repository).

The component keeps its state in a handful of reactive fields
(files, uploading, progress, notes, notesChanged, uploadType) and
mutates them through event handlers.  We embed that state as the
structure UploaderState and each handler as a pure transition
function.  External effects (the transfer request, the notes-update
call, notifications) are made explicit: the transfer environment
carries the stored auth token, the transport progress events and the
batch outcome; results record whether a request was issued, which
completion callbacks fired and which notification titles were shown.
-/

namespace FileUploader

/-- One staged file: name, byte size and MIME type classifier.
The binary handle is irrelevant to every property below and is omitted. -/
structure FileCand where
  name : String
  size : Nat
  type : String
  deriving DecidableEq

/-- The active upload category tab: raw/unedited versus edited/final. -/
inductive UploadType where
  | raw
  | edited
  deriving DecidableEq

/-- The reactive state owned by the component. -/
structure UploaderState where
  files : List FileCand
  uploading : Bool
  progress : Nat
  notes : String
  notesChanged : Bool
  uploadType : UploadType
  deriving DecidableEq

/-- Initial upload type: editors start on the edited tab, everyone else on raw. -/
def initialUploadType (role : Option String) : UploadType :=
  if role = some "editor" then .edited else .raw

/-- The state after component initialisation. -/
def initialState (role : Option String) (initialNotes : String) : UploaderState :=
  { files := []
    uploading := false
    progress := 0
    notes := initialNotes
    notesChanged := false
    uploadType := initialUploadType role }

/-- Default value of the allowedFileTypes prop. -/
def defaultAllowedFileTypes : List String :=
  ["image/jpeg", "image/png", "image/tiff",
   "video/mp4", "video/quicktime",
   "application/zip", "application/x-zip-compressed"]

/-- The fixed size limit: 100 MiB. -/
def maxFileSize : Nat := 100 * 1024 * 1024

/-- validateFiles: partitions the incoming file list into valid files and
invalid files paired with a rejection reason.  The type check comes first,
then the size check, exactly as in the source. -/
def validateFiles (allowedFileTypes : List String) :
    List FileCand → List FileCand × List (FileCand × String)
  | [] => ([], [])
  | file :: rest =>
    let r := validateFiles allowedFileTypes rest
    if ¬ allowedFileTypes.contains file.type then
      (r.1, (file, "File type not supported") :: r.2)
    else if file.size > maxFileSize then
      (r.1, (file, "File exceeds 100MB size limit") :: r.2)
    else
      (file :: r.1, r.2)

/-- handleFileInputChange: on a local file-picker selection, append the
validated files to the queue (no-op on an empty selection). -/
def handleFileInputChange (allowedFileTypes : List String)
    (targetFiles : List FileCand) (s : UploaderState) : UploaderState :=
  if targetFiles.length = 0 then s
  else { s with files := s.files ++ (validateFiles allowedFileTypes targetFiles).1 }

/-- handleDrop: on a drag-and-drop, append the validated files to the queue
(no-op on an empty drop).  The body is identical to handleFileInputChange. -/
def handleDrop (allowedFileTypes : List String)
    (droppedFiles : List FileCand) (s : UploaderState) : UploaderState :=
  if droppedFiles.length = 0 then s
  else { s with files := s.files ++ (validateFiles allowedFileTypes droppedFiles).1 }

/-- The JavaScript Array.filter over (element, index) pairs used by
handleRemoveFile, threading the running index.  The index argument of the
handler is an arbitrary integer. -/
def filterNeIdx (index : Int) (i : Nat) : List FileCand → List FileCand
  | [] => []
  | f :: rest =>
    if (i : Int) ≠ index then f :: filterNeIdx index (i + 1) rest
    else filterNeIdx index (i + 1) rest

/-- handleRemoveFile: keeps every file whose position differs from the
given index. -/
def handleRemoveFile (index : Int) (s : UploaderState) : UploaderState :=
  { s with files := filterNeIdx index 0 s.files }

/-- handleClearFiles: empties the queue. -/
def handleClearFiles (s : UploaderState) : UploaderState :=
  { s with files := [] }

/-- handleNotesChange: stores the edited text and marks the note dirty. -/
def handleNotesChange (value : String) (s : UploaderState) : UploaderState :=
  { s with notes := value, notesChanged := true }

/-- The effect reacting to changes of the initialNotes prop: adopt the new
initial text only when it differs from the current text and the note has
not been edited since the last save. -/
def initialNotesEffect (initialNotes : String) (s : UploaderState) : UploaderState :=
  if initialNotes ≠ s.notes ∧ s.notesChanged = false then
    { s with notes := initialNotes }
  else s

/-- The three note destination fields of the shoot record. -/
inductive NoteField where
  | photographerNotes
  | editingNotes
  | shootNotes
  deriving DecidableEq

/-- The destination-field dispatch inside handleSaveNotes: role branches
first, admins and superadmins then branch on the active upload tab. -/
def noteField (role : Option String) (uploadType : UploadType) : NoteField :=
  if role = some "photographer" then .photographerNotes
  else if role = some "editor" then .editingNotes
  else if role = some "admin" ∨ role = some "superadmin" then
    if uploadType = .raw then .photographerNotes else .editingNotes
  else .shootNotes

/-- Result of handleSaveNotes: the new state, the notes update sent to the
external updateShoot call (none when no call was made) and the shown
notification titles. -/
structure SaveNotesResult where
  state : UploaderState
  update : Option (NoteField × String)
  toasts : List String
  deriving DecidableEq

/-- handleSaveNotes: refuses without a shoot id; otherwise sends the note
text to the role-dependent destination field and clears the dirty flag on
success, leaving the state untouched on failure. -/
def handleSaveNotes (shootId : Option String) (role : Option String)
    (saveSucceeds : Bool) (s : UploaderState) : SaveNotesResult :=
  match shootId with
  | none => { state := s, update := none, toasts := ["Cannot save notes"] }
  | some _ =>
    if saveSucceeds then
      { state := { s with notesChanged := false }
        update := some (noteField role s.uploadType, s.notes)
        toasts := ["Notes saved"] }
    else
      { state := s
        update := some (noteField role s.uploadType, s.notes)
        toasts := ["Error saving notes"] }

/-- One transport progress event: bytes sent so far and total bytes. -/
structure ProgressEvent where
  loaded : Nat
  total : Nat
  deriving DecidableEq

/-- Math.round((loaded * 100) / total) over the rationals, as natural
division: round-half-up of (loaded * 100) / total. -/
def percentCompleted (loaded total : Nat) : Nat :=
  (2 * (loaded * 100) + total) / (2 * total)

/-- The progress value after the transport delivered the given events,
starting from the given prior value: each event overwrites progress with
its own percentage. -/
def applyProgressEvents (p : Nat) (events : List ProgressEvent) : Nat :=
  events.foldl (fun _ ev => percentCompleted ev.loaded ev.total) p

/-- The sequence of progress values visible during one session: the value
at session start followed by each event-driven update. -/
def sessionProgressTrace (startProgress : Nat) (events : List ProgressEvent) :
    List Nat :=
  startProgress :: events.map (fun ev => percentCompleted ev.loaded ev.total)

/-- Batch outcome of the transfer request. -/
inductive UploadOutcome where
  | success
  | failure
  deriving DecidableEq

/-- Environment of one handleUpload call: the stored auth token, the
progress events the transport will deliver, and the batch outcome.  A
network failure and a non-2xx response both surface as failure. -/
structure TransferEnv where
  token : Option String
  events : List ProgressEvent
  outcome : UploadOutcome
  deriving DecidableEq

/-- Result of handleUpload: the new state, whether the HTTP request was
issued, the onUploadComplete invocations (each with its file list and note
text), and the shown notification titles. -/
structure UploadResult where
  state : UploaderState
  requestIssued : Bool
  completions : List (List FileCand × String)
  toasts : List String
  deriving DecidableEq

/-- handleUpload: rejects an empty queue; otherwise sets uploading, aborts
before the request when no auth token is stored, and otherwise issues the
request.  On success it fires the completion callback with the pre-transfer
files and current notes, then clears uploading, progress, the queue and the
dirty flag; on failure it only clears uploading. -/
def handleUpload (hasCallback : Bool) (env : TransferEnv)
    (s : UploaderState) : UploadResult :=
  if s.files.length = 0 then
    { state := s, requestIssued := false, completions := [],
      toasts := ["No files selected"] }
  else
    let s1 := { s with uploading := true }
    match env.token with
    | none =>
      { state := { s1 with uploading := false }, requestIssued := false,
        completions := [], toasts := ["Upload Failed"] }
    | some _ =>
      let s2 := { s1 with progress := applyProgressEvents s1.progress env.events }
      match env.outcome with
      | .success =>
        { state := { s2 with uploading := false, progress := 0, files := [],
                              notesChanged := false },
          requestIssued := true,
          completions := if hasCallback then [(s.files, s.notes)] else [],
          toasts := ["Upload Complete"] }
      | .failure =>
        { state := { s2 with uploading := false }, requestIssued := true,
          completions := [], toasts := ["Upload Failed"] }

/-- Whether the transfer trigger button is rendered: the render function
shows it only while not uploading (a disabled placeholder is shown
instead while uploading). -/
def uploadTriggerRendered (s : UploaderState) : Bool :=
  !s.uploading

/-- The file appended by the remote-provider listings: new File([], name)
has zero size and an empty type classifier. -/
def newFileEmpty (name : String) : FileCand :=
  { name := name, size := 0, type := "" }

/-- Selecting an item in the Dropbox or Google Drive listing: appends the
fixed demo file directly to the queue, without validation. -/
def providerAddFile (name : String) (s : UploaderState) : UploaderState :=
  { s with files := s.files ++ [newFileEmpty name] }

/-- The destination-field table of the specification, row by row:
photographer to photographer notes, editor to editing notes, admin or
superadmin to photographer notes for the raw category and editing notes
for the edited category, any other role to generic shoot notes. -/
def destinationFieldSpec (role : Option String) (cat : UploadType) : NoteField :=
  if role = some "photographer" then .photographerNotes
  else if role = some "editor" then .editingNotes
  else if (role = some "admin" ∨ role = some "superadmin") ∧ cat = .raw then
    .photographerNotes
  else if (role = some "admin" ∨ role = some "superadmin") ∧ cat = .edited then
    .editingNotes
  else .shootNotes

/-- A sample JPEG candidate within the size limit. -/
def sampleJpeg : FileCand :=
  { name := "a.jpg", size := 2 * 1024 * 1024, type := "image/jpeg" }

/-- A second sample candidate within the size limit. -/
def samplePng : FileCand :=
  { name := "b.png", size := 1024, type := "image/png" }

/-- A third sample candidate within the size limit. -/
def sampleMp4 : FileCand :=
  { name := "c.mp4", size := 4096, type := "video/mp4" }

/-- A sample state with one queued file and an upload in flight. -/
def busyState : UploaderState :=
  { files := [sampleJpeg], uploading := true, progress := 37,
    notes := "note", notesChanged := true, uploadType := .raw }

/-- A sample idle state with one queued file. -/
def idleState : UploaderState :=
  { files := [sampleJpeg], uploading := false, progress := 0,
    notes := "note", notesChanged := true, uploadType := .raw }

/-- A sample idle state with three queued files. -/
def idleState3 : UploaderState :=
  { files := [sampleJpeg, samplePng, sampleMp4], uploading := false, progress := 0,
    notes := "note", notesChanged := false, uploadType := .raw }

/-- A sample environment: token stored, one progress event reaching 60
percent, failing outcome. -/
def failEnv60 : TransferEnv :=
  { token := some "tok", events := [{ loaded := 3, total := 5 }], outcome := .failure }

/-- A sample environment: token stored, no progress events, failing outcome. -/
def failEnvNoEvents : TransferEnv :=
  { token := some "tok", events := [], outcome := .failure }

/-- A sample environment: token stored, two progress events, successful
outcome. -/
def successEnv : TransferEnv :=
  { token := some "tok",
    events := [{ loaded := 2, total := 5 }, { loaded := 5, total := 5 }],
    outcome := .success }

/-- The accepted files are exactly the input files passing both checks,
kept in their original relative order. -/
lemma validateFiles_fst (a : List String) (l : List FileCand) :
    (validateFiles a l).1 =
      l.filter (fun f => a.contains f.type && decide (f.size ≤ maxFileSize)) := by
  induction l with
  | nil => rfl
  | cons file rest ih =>
    simp only [validateFiles, List.filter_cons]
    by_cases h1 : file.type ∈ a
    · by_cases h2 : maxFileSize < file.size
      · simp [h1, h2, ih, Nat.not_le.mpr h2]
      · simp [h1, h2, ih, Nat.le_of_not_lt h2]
    · simp [h1, ih]

/-- The rejected files are exactly the input files failing a check, each
carrying the single reason determined by checking the type first. -/
lemma validateFiles_snd (a : List String) (l : List FileCand) :
    (validateFiles a l).2 =
      (l.filter (fun f => !(a.contains f.type) || decide (maxFileSize < f.size))).map
        (fun f => (f, if a.contains f.type then "File exceeds 100MB size limit"
                      else "File type not supported")) := by
  induction l with
  | nil => rfl
  | cons file rest ih =>
    simp only [validateFiles, List.filter_cons]
    by_cases h1 : file.type ∈ a
    · by_cases h2 : maxFileSize < file.size
      · simp [h1, h2, ih, Nat.not_le.mpr h2]
      · simp [h1, h2, ih, Nat.le_of_not_lt h2]
    · simp [h1, ih]

/-- Every file accepted by the validator came from the input and satisfies
the policy. -/
lemma mem_validateFiles_fst {a : List String} {l : List FileCand} {f : FileCand}
    (h : f ∈ (validateFiles a l).1) :
    f ∈ l ∧ a.contains f.type = true ∧ f.size ≤ maxFileSize := by
  rw [validateFiles_fst] at h
  have h1 := List.mem_filter.mp h
  have h2 := Bool.and_eq_true _ _ |>.mp h1.2
  exact ⟨h1.1, h2.1, by simpa using h2.2⟩

/-- When the removal index lies outside the index range of the list, the
indexed filter keeps everything. -/
lemma filterNeIdx_out (index : Int) :
    ∀ (l : List FileCand) (i : Nat),
      (index < (i : Int) ∨ (i : Int) + l.length ≤ index) →
      filterNeIdx index i l = l := by
  intro l
  induction l with
  | nil => intro i _; rfl
  | cons f rest ih =>
    intro i h
    simp only [List.length_cons] at h
    have hne : (i : Int) ≠ index := by omega
    simp only [filterNeIdx, if_pos hne]
    rw [ih (i + 1) (by push_cast at h ⊢; omega)]

/-- When the removal index addresses position k of the list, the indexed
filter drops exactly that element. -/
lemma filterNeIdx_in :
    ∀ (l : List FileCand) (k i : Nat), k < l.length →
      filterNeIdx ((i + k : Nat) : Int) i l = l.take k ++ l.drop (k + 1) := by
  intro l
  induction l with
  | nil => intro k i h; simp at h
  | cons f rest ih =>
    intro k i h
    cases k with
    | zero =>
      simp only [filterNeIdx]
      rw [if_neg (by simp)]
      rw [filterNeIdx_out _ rest (i + 1) (by left; push_cast; omega)]
      simp
    | succ k =>
      simp only [filterNeIdx]
      rw [if_pos (by push_cast; omega)]
      have hidx : (i + (k + 1) : Nat) = ((i + 1) + k : Nat) := by omega
      rw [hidx, ih k (i + 1) (by simpa using Nat.lt_of_succ_lt_succ h)]
      simp

/-- The percentage conversion is monotone in the bytes sent. -/
lemma percentCompleted_mono {a b : Nat} (t : Nat) (h : a ≤ b) :
    percentCompleted a t ≤ percentCompleted b t := by
  unfold percentCompleted
  apply Nat.div_le_div_right
  have h2 : a * 100 ≤ b * 100 := Nat.mul_le_mul_right 100 h
  omega

/-- Events with non-decreasing sent bytes and one fixed total yield
non-decreasing percentages. -/
lemma chain_percentCompleted (t : Nat) :
    ∀ l : List ProgressEvent,
      List.Chain' (fun x y => x.loaded ≤ y.loaded) l →
      (∀ ev ∈ l, ev.total = t) →
      List.Chain' (fun x y : Nat => x ≤ y)
        (l.map fun ev => percentCompleted ev.loaded ev.total) := by
  intro l
  induction l with
  | nil => intro _ _; simp
  | cons e rest ih =>
    intro hc ht
    cases rest with
    | nil => simp
    | cons e2 rest2 =>
      rw [List.map_cons, List.map_cons]
      rw [List.chain'_cons] at hc
      rw [List.chain'_cons]
      constructor
      · have ht1 : e.total = t := ht e (by simp)
        have ht2 : e2.total = t := ht e2 (by simp)
        rw [ht1, ht2]
        exact percentCompleted_mono t hc.1
      · have hrest := ih hc.2 (fun ev hev => ht ev (List.mem_cons_of_mem _ hev))
        rw [List.map_cons] at hrest
        exact hrest

/-- After a non-empty event list, the running progress value equals the
percentage of the final event. -/
lemma applyProgressEvents_concat (p : Nat) (es : List ProgressEvent)
    (e : ProgressEvent) :
    applyProgressEvents p (es ++ [e]) = percentCompleted e.loaded e.total := by
  unfold applyProgressEvents
  rw [List.foldl_append]
  simp

/-- Reduction of handleUpload on the empty queue. -/
lemma handleUpload_empty (cb : Bool) (env : TransferEnv) (s : UploaderState)
    (h : s.files = []) :
    handleUpload cb env s =
      { state := s, requestIssued := false, completions := [],
        toasts := ["No files selected"] } := by
  unfold handleUpload
  rw [if_pos (by simp [h])]

/-- Reduction of handleUpload when no auth token is stored. -/
lemma handleUpload_noToken (cb : Bool) (env : TransferEnv) (s : UploaderState)
    (hne : s.files ≠ []) (htok : env.token = none) :
    handleUpload cb env s =
      { state := { s with uploading := false }, requestIssued := false,
        completions := [], toasts := ["Upload Failed"] } := by
  have hlen : ¬ s.files.length = 0 := by simpa using hne
  unfold handleUpload
  rw [if_neg hlen, htok]

/-- Reduction of handleUpload on a successful transfer. -/
lemma handleUpload_success (cb : Bool) (env : TransferEnv) (s : UploaderState)
    (t : String) (hne : s.files ≠ []) (htok : env.token = some t)
    (hout : env.outcome = .success) :
    handleUpload cb env s =
      { state := { s with uploading := false, progress := 0, files := [], notesChanged := false },
        requestIssued := true,
        completions := if cb then [(s.files, s.notes)] else [],
        toasts := ["Upload Complete"] } := by
  have hlen : ¬ s.files.length = 0 := by simpa using hne
  unfold handleUpload
  rw [if_neg hlen, htok, hout]

/-- Reduction of handleUpload on a failed transfer attempt. -/
lemma handleUpload_failure (cb : Bool) (env : TransferEnv) (s : UploaderState)
    (t : String) (hne : s.files ≠ []) (htok : env.token = some t)
    (hout : env.outcome = .failure) :
    handleUpload cb env s =
      { state := { s with uploading := false, progress := applyProgressEvents s.progress env.events },
        requestIssued := true, completions := [],
        toasts := ["Upload Failed"] } := by
  have hlen : ¬ s.files.length = 0 := by simpa using hne
  unfold handleUpload
  rw [if_neg hlen, htok, hout]

/-- Claim C6 (confirmed): validateFiles partitions its input.  The accepted
files are exactly those whose type classifier is in the allowed list and
whose size is at most the 100MB limit, kept in their original relative
order; every other file is rejected under exactly one reason, the type
reason taking precedence over the size reason.  In this embedding the
validator is a pure function of its input, so it has no effect on the
queue by construction. -/
theorem C6_validator_partition (a : List String) (l : List FileCand) :
    (validateFiles a l).1 =
      l.filter (fun f => a.contains f.type && decide (f.size ≤ maxFileSize)) ∧
    (validateFiles a l).2 =
      (l.filter (fun f => !(a.contains f.type) || decide (maxFileSize < f.size))).map
        (fun f => (f, if a.contains f.type then "File exceeds 100MB size limit"
                      else "File type not supported")) :=
  ⟨validateFiles_fst a l, validateFiles_snd a l⟩

/-- Claim C7 (confirmed): the independent note save sends the note text to
exactly the destination field of the specification table for every
(role, category) pair, including the generic fallback for unrecognized
roles. -/
theorem C7_note_destination (role : Option String) (cat : UploadType)
    (sid : String) (b : Bool) (s : UploaderState) :
    (handleSaveNotes (some sid) role b s).update =
      some (noteField role s.uploadType, s.notes) ∧
    noteField role cat = destinationFieldSpec role cat := by
  constructor
  · cases b <;> rfl
  · cases cat <;>
      (unfold noteField destinationFieldSpec; split_ifs <;> simp_all)

/-- Claim C9 (confirmed): handleRemoveFile is total over every integer
index: an in-bounds index removes exactly the element at that position and
preserves the relative order of the remaining elements, while an
out-of-bounds index (negative or too large) leaves the queue unchanged. -/
theorem C9_remove_total (s : UploaderState) (index : Int) :
    (0 ≤ index → index.toNat < s.files.length →
      (handleRemoveFile index s).files =
        s.files.take index.toNat ++ s.files.drop (index.toNat + 1)) ∧
    ((index < 0 ∨ (s.files.length : Int) ≤ index) →
      (handleRemoveFile index s).files = s.files) := by
  constructor
  · intro h0 hlt
    show filterNeIdx index 0 s.files = _
    have hk := filterNeIdx_in s.files index.toNat 0 hlt
    have hcast : ((0 + index.toNat : Nat) : Int) = index := by
      push_cast
      omega
    rw [hcast] at hk
    exact hk
  · intro h
    show filterNeIdx index 0 s.files = s.files
    apply filterNeIdx_out
    rcases h with h | h
    · left
      omega
    · right
      push_cast
      omega

/-- Concrete instance of the removal theorem: removing index 1 of a
three-file queue drops exactly the middle file, and out-of-bounds indices
5 and -1 leave the queue unchanged. -/
theorem C9_remove_total_witness :
    (handleRemoveFile 1 idleState3).files = [sampleJpeg, sampleMp4] ∧
    (handleRemoveFile 5 idleState3).files = [sampleJpeg, samplePng, sampleMp4] ∧
    (handleRemoveFile (-1) idleState3).files = [sampleJpeg, samplePng, sampleMp4] := by
  refine ⟨?_, ?_, ?_⟩
  · have h := (C9_remove_total idleState3 1).1 (by decide) (by decide)
    rw [h]
    rfl
  · have h := (C9_remove_total idleState3 5).2 (Or.inr (by decide))
    rw [h]
    rfl
  · have h := (C9_remove_total idleState3 (-1)).2 (Or.inl (by decide))
    rw [h]
    rfl

/-- Claim C10 (confirmed): while the note is dirty a change of the
initialNotes prop never overwrites the current text, and while it is clean
the new initial text is adopted exactly when it differs from the current
text. -/
theorem C10_initial_notes_guard (init : String) (s : UploaderState) :
    (s.notesChanged = true → initialNotesEffect init s = s) ∧
    (s.notesChanged = false →
      initialNotesEffect init s =
        if init ≠ s.notes then { s with notes := init } else s) := by
  constructor
  · intro h
    unfold initialNotesEffect
    rw [if_neg (by simp [h])]
  · intro h
    unfold initialNotesEffect
    by_cases hne : init ≠ s.notes
    · rw [if_pos ⟨hne, h⟩, if_pos hne]
    · rw [if_neg (by simp [hne]), if_neg hne]

/-- Concrete instance of the initial-notes guard: a dirty state keeps its
text, a clean state adopts the differing initial text. -/
theorem C10_initial_notes_guard_witness :
    initialNotesEffect "fresh" busyState = busyState ∧
    initialNotesEffect "fresh" (initialState none "old") =
      (if ("fresh" : String) ≠ "old"
       then { initialState none "old" with notes := "fresh" }
       else initialState none "old") :=
  ⟨(C10_initial_notes_guard "fresh" busyState).1 rfl,
   (C10_initial_notes_guard "fresh" (initialState none "old")).2 rfl⟩

/-- Claim C2 (corrected), counterexample to the claim as stated: selecting
the fixed Dropbox listing entry admits a candidate built by
new File([], name), whose type classifier is the empty string, which is
not in the default allowed list, so the remote-provider admission path
violates the validation policy. -/
theorem C2_counterexample :
    (providerAddFile "client_project_photo.jpg" (initialState none "")).files =
      [{ name := "client_project_photo.jpg", size := 0, type := "" }] ∧
    defaultAllowedFileTypes.contains
      (newFileEmpty "client_project_photo.jpg").type = false :=
  ⟨rfl, by decide⟩

/-- Claim C2 (corrected, amended part): every candidate admitted through
the local picker or through drag-and-drop either was already queued or
satisfies the policy in force: its type is in the allowed list and its
size is at most the limit. -/
theorem C2_local_admission_valid (allowed : List String)
    (input : List FileCand) (s : UploaderState) (f : FileCand) :
    (f ∈ (handleFileInputChange allowed input s).files →
      f ∈ s.files ∨ (allowed.contains f.type = true ∧ f.size ≤ maxFileSize)) ∧
    (f ∈ (handleDrop allowed input s).files →
      f ∈ s.files ∨ (allowed.contains f.type = true ∧ f.size ≤ maxFileSize)) := by
  constructor
  · intro hmem
    unfold handleFileInputChange at hmem
    by_cases hlen : input.length = 0
    · rw [if_pos hlen] at hmem
      exact Or.inl hmem
    · rw [if_neg hlen] at hmem
      rcases List.mem_append.mp hmem with h | h
      · exact Or.inl h
      · exact Or.inr (mem_validateFiles_fst h).2
  · intro hmem
    unfold handleDrop at hmem
    by_cases hlen : input.length = 0
    · rw [if_pos hlen] at hmem
      exact Or.inl hmem
    · rw [if_neg hlen] at hmem
      rcases List.mem_append.mp hmem with h | h
      · exact Or.inl h
      · exact Or.inr (mem_validateFiles_fst h).2

/-- Concrete instance of the local-admission theorem at a picked JPEG. -/
theorem C2_local_admission_valid_witness :
    sampleJpeg ∈ (initialState none "").files ∨
      (defaultAllowedFileTypes.contains sampleJpeg.type = true ∧
        sampleJpeg.size ≤ maxFileSize) :=
  (C2_local_admission_valid defaultAllowedFileTypes [sampleJpeg]
    (initialState none "") sampleJpeg).1 (by decide)

/-- Claim C1 (corrected), counterexample to the claim as stated: from a
state whose uploading flag is true, invoking handleUpload is not rejected:
it issues another request (and its progress handler overwrites the
percentage of the running session). -/
theorem C1_counterexample :
    busyState.uploading = true ∧
    (handleUpload true failEnv60 busyState).requestIssued = true ∧
    (handleUpload true failEnv60 busyState).state.progress = 60 :=
  ⟨rfl, rfl, rfl⟩

/-- Claim C1 (corrected, amended part): re-entry while uploading is
prevented only at the UI, where the transfer trigger is not rendered while
the uploading flag is true; handleUpload itself rejects only an empty
queue, and when invoked while uploading with a non-empty queue and a
stored token it does issue another request. -/
theorem C1_reentry_not_guarded (s : UploaderState) (env : TransferEnv)
    (cb : Bool) (hup : s.uploading = true) :
    uploadTriggerRendered s = false ∧
    (s.files = [] →
      (handleUpload cb env s).state = s ∧
      (handleUpload cb env s).requestIssued = false) ∧
    (s.files ≠ [] → ∀ t, env.token = some t →
      (handleUpload cb env s).requestIssued = true) := by
  refine ⟨?_, ?_, ?_⟩
  · simp [uploadTriggerRendered, hup]
  · intro h
    rw [handleUpload_empty cb env s h]
    exact ⟨rfl, rfl⟩
  · intro hne t htok
    cases hout : env.outcome
    case success => rw [handleUpload_success cb env s t hne htok hout]
    case failure => rw [handleUpload_failure cb env s t hne htok hout]

/-- Concrete instance of the re-entry theorem at the busy sample state. -/
theorem C1_reentry_not_guarded_witness :
    uploadTriggerRendered busyState = false ∧
    (handleUpload true failEnv60 busyState).requestIssued = true := by
  have h := C1_reentry_not_guarded busyState failEnv60 true rfl
  exact ⟨h.1, h.2.2 (by decide) "tok" rfl⟩

/-- Claim C3 (confirmed): on a successful transfer from a non-empty queue
the queue becomes empty, progress returns to 0, the dirty flag is cleared,
the manager returns to idle, and the completion callback fires exactly once
with the pre-transfer file list and the current note text. -/
theorem C3_transfer_success (s : UploaderState) (env : TransferEnv)
    (t : String) (hne : s.files ≠ []) (htok : env.token = some t)
    (hout : env.outcome = .success) :
    (handleUpload true env s).state.files = [] ∧
    (handleUpload true env s).state.progress = 0 ∧
    (handleUpload true env s).state.notesChanged = false ∧
    (handleUpload true env s).state.uploading = false ∧
    (handleUpload true env s).completions = [(s.files, s.notes)] := by
  rw [handleUpload_success true env s t hne htok hout]
  exact ⟨rfl, rfl, rfl, rfl, rfl⟩

/-- Concrete instance of the success theorem at the idle sample state. -/
theorem C3_transfer_success_witness :
    (handleUpload true successEnv idleState).state.files = [] ∧
    (handleUpload true successEnv idleState).state.progress = 0 ∧
    (handleUpload true successEnv idleState).state.notesChanged = false ∧
    (handleUpload true successEnv idleState).state.uploading = false ∧
    (handleUpload true successEnv idleState).completions = [([sampleJpeg], "note")] :=
  C3_transfer_success idleState successEnv "tok" (by decide) rfl rfl

/-- Claim C4 (confirmed): on a failed transfer attempt (missing stored
token, network failure or non-2xx response) the queue keeps its contents
and order, the note text and dirty flag are unchanged, no completion fires,
and the manager returns to idle. -/
theorem C4_transfer_failure (s : UploaderState) (env : TransferEnv)
    (cb : Bool) (hne : s.files ≠ [])
    (hfail : env.token = none ∨ env.outcome = .failure) :
    (handleUpload cb env s).state.files = s.files ∧
    (handleUpload cb env s).state.notes = s.notes ∧
    (handleUpload cb env s).state.notesChanged = s.notesChanged ∧
    (handleUpload cb env s).state.uploading = false ∧
    (handleUpload cb env s).completions = [] := by
  rcases hfail with htok | hout
  · rw [handleUpload_noToken cb env s hne htok]
    exact ⟨rfl, rfl, rfl, rfl, rfl⟩
  · cases htok : env.token with
    | none =>
      rw [handleUpload_noToken cb env s hne htok]
      exact ⟨rfl, rfl, rfl, rfl, rfl⟩
    | some t =>
      rw [handleUpload_failure cb env s t hne htok hout]
      exact ⟨rfl, rfl, rfl, rfl, rfl⟩

/-- Concrete instance of the failure theorem at the idle sample state. -/
theorem C4_transfer_failure_witness :
    (handleUpload true failEnv60 idleState).state.files = idleState.files ∧
    (handleUpload true failEnv60 idleState).state.notes = idleState.notes ∧
    (handleUpload true failEnv60 idleState).state.notesChanged = idleState.notesChanged ∧
    (handleUpload true failEnv60 idleState).state.uploading = false ∧
    (handleUpload true failEnv60 idleState).completions = [] :=
  C4_transfer_failure idleState failEnv60 true (by decide) (Or.inr rfl)

/-- Claim C5 (corrected), counterexample to the claim as stated: a failed
session that reached 60 percent leaves progress at 60; the next session
does not start at 0 but at the stale value, and a first event of 20
percent then makes the visible trace [60, 20], which is not monotone. -/
theorem C5_counterexample :
    (handleUpload false failEnv60 idleState).state.progress = 60 ∧
    (handleUpload false failEnvNoEvents
      ((handleUpload false failEnv60 idleState).state)).state.progress = 60 ∧
    sessionProgressTrace
      ((handleUpload false failEnv60 idleState).state).progress
      [{ loaded := 1, total := 5 }] = [60, 20] :=
  ⟨rfl, rfl, rfl⟩

/-- Claim C5 (corrected, amended part): each progress event overwrites the
percentage with round(bytesSent * 100 / bytesTotal), so after a non-empty
event list the percentage is that of the most recent event; the
event-driven updates are monotone non-decreasing whenever the transport
delivers non-decreasing sent bytes over one fixed total; a successful
session ends with progress 0, while a failed session keeps its last value,
so only a session following a successful one starts at 0. -/
theorem C5_progress_behaviour (p t : Nat) (events es : List ProgressEvent)
    (e : ProgressEvent) (s : UploaderState) (env : TransferEnv) (cb : Bool)
    (tok : String) :
    (events = es ++ [e] →
      applyProgressEvents p events = percentCompleted e.loaded e.total) ∧
    (List.Chain' (fun x y => x.loaded ≤ y.loaded) events →
      (∀ ev ∈ events, ev.total = t) →
      List.Chain' (fun x y : Nat => x ≤ y)
        (events.map fun ev => percentCompleted ev.loaded ev.total)) ∧
    (s.files ≠ [] → env.token = some tok → env.outcome = .success →
      (handleUpload cb env s).state.progress = 0) ∧
    (s.files ≠ [] → env.token = some tok → env.outcome = .failure →
      (handleUpload cb env s).state.progress =
        applyProgressEvents s.progress env.events) := by
  refine ⟨?_, ?_, ?_, ?_⟩
  · intro h
    rw [h]
    exact applyProgressEvents_concat p es e
  · exact chain_percentCompleted t events
  · intro hne htok hout
    rw [handleUpload_success cb env s tok hne htok hout]
  · intro hne htok hout
    rw [handleUpload_failure cb env s tok hne htok hout]

/-- Concrete instance of the progress theorem: a two-event session ending
at 100 percent, its monotone percentages, the reset after success and the
retained value after failure. -/
theorem C5_progress_behaviour_witness :
    applyProgressEvents 0 [{ loaded := 2, total := 5 }, { loaded := 5, total := 5 }] =
      percentCompleted 5 5 ∧
    List.Chain' (fun x y : Nat => x ≤ y)
      (([{ loaded := 2, total := 5 }, { loaded := 5, total := 5 }] : List ProgressEvent).map
        fun ev => percentCompleted ev.loaded ev.total) ∧
    (handleUpload true successEnv idleState).state.progress = 0 ∧
    (handleUpload true failEnv60 idleState).state.progress =
      applyProgressEvents idleState.progress failEnv60.events := by
  have h1 := C5_progress_behaviour 0 5
    [{ loaded := 2, total := 5 }, { loaded := 5, total := 5 }]
    [{ loaded := 2, total := 5 }] { loaded := 5, total := 5 }
    idleState successEnv true "tok"
  have h2 := C5_progress_behaviour 0 5
    [{ loaded := 2, total := 5 }, { loaded := 5, total := 5 }]
    [{ loaded := 2, total := 5 }] { loaded := 5, total := 5 }
    idleState failEnv60 true "tok"
  refine ⟨h1.1 rfl, h1.2.1 ?_ (by decide),
         h1.2.2.1 (by decide) rfl rfl, h2.2.2.2 (by decide) rfl rfl⟩
  refine List.chain'_cons.mpr ⟨by decide, ?_⟩
  simp

/-- Claim C8 (confirmed): the dirty flag is false initially, is untouched
by a load of the initial text, becomes true on every text edit, becomes
false on a successful independent save and on a successful transfer, and
is unchanged by a failed save (including the save refused for lack of a
shoot id). -/
theorem C8_dirty_flag (role : Option String) (init v id tok : String)
    (sid : Option String) (b : Bool) (s : UploaderState) (env : TransferEnv)
    (cb : Bool) :
    (initialState role init).notesChanged = false ∧
    (initialNotesEffect v s).notesChanged = s.notesChanged ∧
    (handleNotesChange v s).notesChanged = true ∧
    (handleSaveNotes (some id) role true s).state.notesChanged = false ∧
    (handleSaveNotes sid role false s).state.notesChanged = s.notesChanged ∧
    (handleSaveNotes none role b s).state.notesChanged = s.notesChanged ∧
    (s.files ≠ [] → env.token = some tok → env.outcome = .success →
      (handleUpload cb env s).state.notesChanged = false) := by
  refine ⟨rfl, ?_, rfl, rfl, ?_, ?_, ?_⟩
  · unfold initialNotesEffect
    by_cases h : v ≠ s.notes ∧ s.notesChanged = false
    · rw [if_pos h]
    · rw [if_neg h]
  · cases sid with
    | none => rfl
    | some x => rfl
  · cases b <;> rfl
  · intro hne htok hout
    rw [handleUpload_success cb env s tok hne htok hout]

/-- Concrete instance of the dirty-flag theorem. -/
theorem C8_dirty_flag_witness :
    (initialState (some "photographer") "hello").notesChanged = false ∧
    (initialNotesEffect "x" idleState).notesChanged = idleState.notesChanged ∧
    (handleNotesChange "x" idleState).notesChanged = true ∧
    (handleSaveNotes (some "s1") (some "photographer") true idleState).state.notesChanged = false ∧
    (handleSaveNotes (some "s1") (some "photographer") false idleState).state.notesChanged =
      idleState.notesChanged ∧
    (handleSaveNotes none (some "photographer") true idleState).state.notesChanged =
      idleState.notesChanged ∧
    (handleUpload true successEnv idleState).state.notesChanged = false := by
  have h := C8_dirty_flag (some "photographer") "hello" "x" "s1" "tok"
    (some "s1") true idleState successEnv true
  exact ⟨h.1, h.2.1, h.2.2.1, h.2.2.2.1, h.2.2.2.2.1, h.2.2.2.2.2.1,
         h.2.2.2.2.2.2 (by decide) rfl rfl⟩

end FileUploader
